import Mathlib

/-!
Shallow embedding of the SafeDocs detection-and-disarm pipeline.

Source files embedded here:
  * engine/core/scan_file.py        (scan_bytes, _extract_findings, _byte_entropy,
                                     _simple_heuristics, _run_sanitizer, _ext_from_name, _guess_mime)
  * engine/sanitizers/sanitize_rtf.py   (sanitize_rtf_bytes, sanitize_rtf)
  * engine/sanitizers/sanitize_pdf.py   (_scrub_bytes_safely, _neutralize_keyword, sanitize_pdf)
  * engine/api/shared_logic.py      (get_extension, get_content_type, sanitize_with_available_tools)
  * engine/api/api_stateless.py     (the /scan endpoint, here api_scan_file)

Modelling conventions:
  * bytes are `List Nat` (each element a byte value 0..255); Python's latin-1
    decode/encode is the identity on byte values, so decoded text is kept as the
    same `List Nat` of code points;
  * Python floats are modelled as real numbers;
  * SHA-256 digests are modelled by the bytes themselves (collision-freeness
    abstraction: two digests are equal iff the byte strings are equal);
  * external libraries (pikepdf's parse, PyPDF2's structural rebuild, the OOXML
    zip machinery) are inputs of the embedding, passed in environment records;
  * `from features_runtime import build_features_for_lgbm` in
    engine/core/scan_file.py always fails: engine/core/features_runtime.py has a
    module-level `try:` whose `except` is mis-indented (SyntaxError), so that
    module raises on load and `build_features_for_lgbm` is `None`.  The ML branch of
    `scan_bytes` (and its `lgbm_error` debug finding) is therefore dead code and
    is omitted from the embedding.  The `P_LGBM` blend of `risk_score`
    (scan_file.py lines 270-271) is NOT dead, however: `_simple_heuristics`
    itself supplies a `P_LGBM` key (its `lgbm_like` score), so
    `"P_LGBM" in signals` always succeeds and the blend always executes.
-/

namespace SafeDocs

/-- Byte values of a (pure-ASCII, in all uses below) string literal. -/
def strBytes (s : String) : List Nat := s.toList.map Char.toNat

/-- Python `str.lower` restricted to latin-1 code points: `A`-`Z` and the
latin-1 uppercase letters `0xC0`-`0xDE` (except the multiplication sign `0xD7`)
map down by 32; everything else is fixed. -/
def pyLower (b : Nat) : Nat :=
  if (65 ≤ b ∧ b ≤ 90) ∨ (192 ≤ b ∧ b ≤ 222 ∧ b ≠ 215) then b + 32 else b

/-- Lowercase a decoded byte string (`txt.lower()` in the source). -/
def lowerBytes (l : List Nat) : List Nat := l.map pyLower

/-- Substring containment (Python `needle in hay`). -/
def containsBytes (needle hay : List Nat) : Bool :=
  (List.range (hay.length + 1)).any fun i => needle.isPrefixOf (hay.drop i)

/-- Case-insensitive match of `pat` against the start of `l`
(re.IGNORECASE over latin-1 text with ASCII patterns). -/
def ciStartsWith (pat l : List Nat) : Bool :=
  (pat.map pyLower).isPrefixOf (l.map pyLower)

/-- Case-insensitive substring containment (re.search of a literal pattern). -/
def ciContains (pat hay : List Nat) : Bool :=
  containsBytes (lowerBytes pat) (lowerBytes hay)

/-- Python regex `\w` over latin-1 code points: ASCII alphanumerics and `_`,
plus the latin-1 letters and numeric signs that `str.isalnum` accepts. -/
def wordByte (b : Nat) : Bool :=
  (48 ≤ b ∧ b ≤ 57) ∨ (65 ≤ b ∧ b ≤ 90) ∨ b = 95 ∨ (97 ≤ b ∧ b ≤ 122) ∨
    b = 170 ∨ b = 178 ∨ b = 179 ∨ b = 181 ∨ b = 185 ∨ b = 186 ∨
    (188 ≤ b ∧ b ≤ 190) ∨ (192 ≤ b ∧ b ≤ 214) ∨ (216 ≤ b ∧ b ≤ 246) ∨
    (248 ≤ b ∧ b ≤ 255)

/-- Regex `\b` placed after a word character: the next position is end-of-text
or a non-word byte. -/
def boundaryAfter (l : List Nat) : Bool :=
  match l with
  | [] => true
  | b :: _ => ! wordByte b

/-! ## Findings (engine/core/scan_file.py) -/

/-- A finding dict.  All construction sites in the source set exactly
`id`/`severity`/`message`; the `text` and `description` keys that
`scan_bytes` probes with `.get(...)` are never set, modelled by the
default-empty fields. -/
structure Finding where
  id : String
  severity : String
  message : String
  text : String := ""
  description : String := ""
deriving DecidableEq, Repr

def SUSPICIOUS_STRINGS : List String :=
  ["javascript", "<script", "eval(", "wscript.shell", "powershell",
   "activexobject", "shell(", "cmd.exe", "mshta", "autoopen", "document.open",
   "base64,", "fromcharcode(", "createobject("]

def OOXML_VBA_HINTS : List String :=
  ["vbaProject.bin", "vba", "vbaproject", "_vba_project", "ThisDocument"]

/-- `PDF_JS_PATTERNS` : byte-regex fallback patterns (literal, case-sensitive). -/
def PDF_JS_PATTERNS : List (List Nat) :=
  [strBytes "/JavaScript", strBytes "/JS", strBytes "/AA",
   strBytes "/OpenAction", strBytes "/Launch"]

/-- `RTF_DANGEROUS` hits on the decoded text, `re.search(..., IGNORECASE)`.
The patterns `\\objupdate`, `\\object`, `\\objdata`, `\\pict`, `\\field` are
literal; the last pattern `\\*\s*generator` has both starred groups optional,
so it matches iff `generator` occurs anywhere. -/
def rtfDangerHit (txt : List Nat) : Bool :=
  ciContains (strBytes "\\objupdate") txt ∨ ciContains (strBytes "\\object") txt ∨
  ciContains (strBytes "\\objdata") txt ∨ ciContains (strBytes "\\pict") txt ∨
  ciContains (strBytes "\\field") txt ∨ ciContains (strBytes "generator") txt

/-- Sorted-set insertion used to model Python `sorted(set(hits))`. -/
def insertSortedDedup (s : String) : List String → List String
  | [] => [s]
  | t :: ts =>
    if s = t then t :: ts
    else if s < t then s :: t :: ts
    else t :: insertSortedDedup s ts

def sortedDedup (l : List String) : List String := l.foldr insertSortedDedup []

/-! pikepdf's parse is external: `PdfDoc` records exactly the facts the pdf
branch of `_extract_findings` reads off the parsed object graph. -/

/-- One entry of `pdf.objects`, seen through the checks of the deep-scan loop. -/
structure PdfObj where
  /-- `isinstance(obj, pikepdf.Dictionary)` -/
  isDict : Bool
  /-- `"/JS" in obj or "/JavaScript" in obj` -/
  hasJSKey : Bool
  /-- `"/S" in obj and str(obj["/S"]) in ["/JavaScript", "/Launch", "/SubmitForm"]` -/
  sDangerous : Bool
deriving DecidableEq, Repr

/-- Result of `pikepdf.open`, as probed by `_extract_findings`. -/
structure PdfDoc where
  /-- `"/OpenAction" in root or "/AA" in root` -/
  rootAutoExec : Bool
  /-- `"/Names" in root and "/JavaScript" in root.Names` -/
  namesHasJavaScript : Bool
  objects : List PdfObj

/-- The deep-scan loop of `_extract_findings`: `checked` is incremented, the
loop breaks once `checked > 1000`, otherwise the object is inspected and the
loop breaks on the first hit. -/
def deepScanAux : List PdfObj → Nat → Bool
  | [], _ => false
  | o :: rest, checked =>
    if 1000 < checked + 1 then false
    else if o.isDict && (o.hasJSKey || o.sDangerous) then true
    else deepScanAux rest (checked + 1)

def deepScanHit (objs : List PdfObj) : Bool := deepScanAux objs 0

def suspiciousStringsFinding (hits : List String) : Finding :=
  { id := "suspicious_strings", severity := "medium",
    message := "Suspicious strings found: " ++ String.intercalate ", " (sortedDedup hits) }

def noObviousFinding : Finding :=
  { id := "no_obvious_tricks", severity := "info",
    message := "No obvious embedded scripts/objects detected via lightweight rules." }

/-- `_extract_findings` before the final emptiness check: the suspicious-string
scan followed by the per-format branch.  `pdfParse` is the outcome of the
`pikepdf` attempt (`none` = library missing or `pikepdf.open` raised, which
selects the byte-regex fallback). -/
def extract_findings_core (pdfParse : List Nat → Option PdfDoc)
    (data : List Nat) (ext : String) : List Finding :=
  let txt := data.take 300000
  let low := lowerBytes txt
  let hits := SUSPICIOUS_STRINGS.filter fun s => containsBytes (strBytes s) low
  let base := if hits.isEmpty then [] else [suspiciousStringsFinding hits]
  let branch :=
    if ext = ".pdf" then
      match pdfParse data with
      | some pdf =>
        (if pdf.rootAutoExec then
          [{ id := "pdf_script_js", severity := "high",
             message := "PDF contains auto-execution triggers (OpenAction/AA) detected by structural analysis." }]
         else []) ++
        (if pdf.namesHasJavaScript then
          [{ id := "pdf_script_js", severity := "high",
             message := "PDF contains Named JavaScript objects." }]
         else []) ++
        (if deepScanHit pdf.objects then
          [{ id := "pdf_script_js", severity := "high",
             message := "PDF contains deep-seated JavaScript or Launch actions." }]
         else [])
      | none =>
        if PDF_JS_PATTERNS.any (fun p => containsBytes p data) then
          [{ id := "pdf_script_js", severity := "high",
             message := "PDF contains potentially malicious keywords (regex fallback)." }]
        else []
    else if ext = ".docx" ∨ ext = ".pptx" ∨ ext = ".xlsx" then
      if OOXML_VBA_HINTS.any (fun h => containsBytes (strBytes h) low) then
        [{ id := "ooxml_vba_macro", severity := "high",
           message := "OOXML indicates embedded VBA/macro components (vbaProject.bin)." }]
      else []
    else if ext = ".rtf" then
      if rtfDangerHit txt then
        [{ id := "rtf_embedded_object", severity := "high",
           message := "RTF includes embedded object/field constructs that can be abused." }]
      else []
    else []
  base ++ branch

/-- `_extract_findings`: appends the informational `no_obvious_tricks` finding
when nothing matched. -/
def extract_findings (pdfParse : List Nat → Option PdfDoc)
    (data : List Nat) (ext : String) : List Finding :=
  if (extract_findings_core pdfParse data ext).isEmpty then [noObviousFinding]
  else extract_findings_core pdfParse data ext

/-! ## Entropy and heuristic scores (engine/core/scan_file.py) -/

/-- The raw Shannon entropy accumulator `h` of `_byte_entropy`: the loop over
the 256-entry frequency table, skipping zero counts. -/
noncomputable def entropy_h (s : List Nat) : ℝ :=
  ∑ b ∈ Finset.range 256,
    (if s.count b = 0 then 0
     else -((s.count b : ℝ) / s.length * Real.logb 2 ((s.count b : ℝ) / s.length)))

/-- `_byte_entropy`: Shannon entropy of the first 65536 bytes, normalised by 8
and capped at 1.  `math.log2` forces a real-valued model. -/
noncomputable def byte_entropy (data : List Nat) : ℝ :=
  if data = [] then 0 else min 1 (entropy_h (data.take 65536) / 8)

/-- Number of suspicious-string hits in the 200000-byte text probe of
`_simple_heuristics`. -/
def rules_hits (data : List Nat) : Nat :=
  (SUSPICIOUS_STRINGS.filter fun term =>
    containsBytes (strBytes term) (lowerBytes (data.take 200000))).length

/-- The score dict returned by `_simple_heuristics`. -/
structure Heuristics where
  pTree : ℝ
  pLgbm : ℝ
  pDl : ℝ
  pRules : ℝ
  pMeta : ℝ

noncomputable def simple_heuristics (data : List Nat) (ext : String) : Heuristics :=
  let entropy := byte_entropy data
  let rules_score : ℝ := min 1 ((rules_hits data : ℝ) / 5)
  let type_bias : ℝ :=
    if ext = ".pdf" ∨ ext = ".rtf" then 0.05
    else if ext = ".docx" ∨ ext = ".pptx" ∨ ext = ".xlsx" then 0.08
    else 0
  let tree_like := min 1 (0.5 * entropy + 0.7 * rules_score + type_bias)
  let lgbm_like := min 1 (0.6 * tree_like + 0.4 * entropy)
  let dl_like := min 1 (0.5 * entropy + 0.6 * rules_score)
  let meta_score := max 0 (min 1 (0.25 * tree_like + 0.35 * lgbm_like + 0.3 * dl_like + 0.1 * rules_score))
  ⟨tree_like, lgbm_like, dl_like, rules_score, meta_score⟩

/-! ## RTF sanitizer (engine/sanitizers/sanitize_rtf.py)

`sanitize_rtf_bytes` decodes latin-1 (identity on byte values), applies
  re.sub(r"\\object\b.*?\\endobj\b", "", txt, IGNORECASE|DOTALL)
  re.sub(r"\\(objdata|objclass|field|pict)\b", "", txt, IGNORECASE)
and re-encodes.  The two substitutions are implemented positionally below;
the `Nat` fuel argument is an upper bound on the remaining text length, which
makes the recursion structural (a step always consumes at least one byte). -/

/-- Advance to just past the earliest `\endobj\b` (case-insensitive) match,
returning the remaining text; `none` when no such match exists. -/
def dropToEndobj : List Nat → Option (List Nat)
  | [] => none
  | b :: rest =>
    if ciStartsWith (strBytes "\\endobj") (b :: rest) ∧
        boundaryAfter ((b :: rest).drop 7) then
      some ((b :: rest).drop 7)
    else dropToEndobj rest

/-- `\object\b` matches at the current position. -/
def objectMatchAt (l : List Nat) : Bool :=
  ciStartsWith (strBytes "\\object") l ∧ boundaryAfter (l.drop 7)

def rtfScrub1Go : Nat → List Nat → List Nat
  | _, [] => []
  | 0, l => l
  | fuel + 1, b :: rest =>
    if objectMatchAt (b :: rest) then
      match dropToEndobj ((b :: rest).drop 7) with
      | some rem => rtfScrub1Go fuel rem
      | none => b :: rtfScrub1Go fuel rest
    else b :: rtfScrub1Go fuel rest

/-- First substitution: drop every `\object\b.*?\endobj\b` span. -/
def rtfScrub1 (l : List Nat) : List Nat := rtfScrub1Go l.length l

/-- Second substitution's alternation `(objdata|objclass|field|pict)\b`,
tried in pattern order just after a backslash; returns the matched length. -/
def rtfAltMatch (rest : List Nat) : Option Nat :=
  if ciStartsWith (strBytes "objdata") rest ∧ boundaryAfter (rest.drop 7) then some 7
  else if ciStartsWith (strBytes "objclass") rest ∧ boundaryAfter (rest.drop 8) then some 8
  else if ciStartsWith (strBytes "field") rest ∧ boundaryAfter (rest.drop 5) then some 5
  else if ciStartsWith (strBytes "pict") rest ∧ boundaryAfter (rest.drop 4) then some 4
  else none

def rtfScrub2Go : Nat → List Nat → List Nat
  | _, [] => []
  | 0, l => l
  | fuel + 1, b :: rest =>
    if b = 92 then
      match rtfAltMatch rest with
      | some n => rtfScrub2Go fuel (rest.drop n)
      | none => b :: rtfScrub2Go fuel rest
    else b :: rtfScrub2Go fuel rest

/-- Second substitution: drop every `\(objdata|objclass|field|pict)\b`. -/
def rtfScrub2 (l : List Nat) : List Nat := rtfScrub2Go l.length l

/-- `sanitize_rtf_bytes` (the decode/encode steps are the identity on latin-1;
the `except` branch is unreachable for this pure computation). -/
def sanitize_rtf_bytes (data : List Nat) : List Nat := rtfScrub2 (rtfScrub1 data)

/-- `sanitize_rtf` (the path-based variant): same two substitutions on the
file's bytes, written out with `status: ok`; the `except`/copy branch is
unreachable for this pure computation.  Returns (output bytes, status). -/
def sanitize_rtf_file (data : List Nat) : List Nat × String :=
  (rtfScrub2 (rtfScrub1 data), "ok")

/-! ## Core scan (engine/core/scan_file.py, scan_bytes) -/

/-- Python `str.strip()` on a character list (whitespace from both ends). -/
def stripChars (cs : List Char) : List Char :=
  ((cs.dropWhile Char.isWhitespace).reverse.dropWhile Char.isWhitespace).reverse

/-- `os.path.splitext(name)[1].lower().strip()` (`_ext_from_name`); the empty
name short-circuits to `""`. An extension exists iff some character strictly
before the last dot of the basename is not itself a dot. -/
def ext_from_name (name : String) : String :=
  if name = "" then ""
  else
    let p := name.toList
    let base := match p.reverse.findIdx? (fun c => c = '/') with
      | none => p
      | some j => p.drop (p.length - j)
    match base.reverse.findIdx? (fun c => c = '.') with
    | none => ""
    | some j =>
      let dotIdx := base.length - 1 - j
      if (base.take dotIdx).any (fun c => c ≠ '.') then
        String.mk (stripChars ((base.drop dotIdx).map fun c =>
          Char.ofNat (pyLower c.toNat)))
      else ""

/-- `_guess_mime`. -/
def guess_mime (ext : String) : String :=
  if ext = ".pdf" then "application/pdf"
  else if ext = ".docx" then "application/vnd.openxmlformats-officedocument.wordprocessingml.document"
  else if ext = ".pptx" then "application/vnd.openxmlformats-officedocument.presentationml.presentation"
  else if ext = ".xlsx" then "application/vnd.openxmlformats-officedocument.spreadsheetml.sheet"
  else if ext = ".rtf" then "application/rtf"
  else "application/octet-stream"

/-- The `sanitizer` metadata dict attached by `scan_bytes`/`_run_sanitizer`. -/
inductive SanMeta where
  /-- `{"sanitizer": "pdf"}` -/
  | pdf : SanMeta
  /-- `{"sanitizer": "ooxml"}` -/
  | ooxml : SanMeta
  /-- `{"sanitizer": "rtf"}` -/
  | rtf : SanMeta
  /-- `{"sanitizer_error": msg}` -/
  | sanitizerError (msg : String) : SanMeta
  /-- `{}` (no sanitizer for the extension / import unavailable) -/
  | emptyMeta : SanMeta
  /-- `{"engine": "none", "reason": "benign_not_sanitized"}` -/
  | benignNotSanitized : SanMeta
  /-- top-level `{"error": msg}` of the catastrophic fallback dict -/
  | fallbackError (msg : String) : SanMeta
deriving DecidableEq, Repr

/-- Environment of `scan_bytes`: the external collaborators and the abstract
possibility of an internal exception.
  * `pdfParse` — outcome of `pikepdf.open` inside `_extract_findings`;
  * `pdfSanitize`/`ooxmlSanitize` — `sanitize_pdf_bytes`/`sanitize_ooxml_bytes`
    as importable callables (outer `Option`: the guarded import may fail;
    `Except`: the call may raise).  `sanitize_rtf_bytes` is pure Python with no
    third-party imports, so it is embedded concretely and always available;
  * `crash` — `some msg` abstracts an unexpected exception (message `msg`)
    anywhere in the body of `scan_bytes`, which the top-level `except` turns
    into the structured fallback dict. -/
structure ScanEnv where
  pdfParse : List Nat → Option PdfDoc
  pdfSanitize : Option (List Nat → Except String (List Nat))
  ooxmlSanitize : Option (String → List Nat → Except String (List Nat))
  crash : Option String

/-- `_run_sanitizer`. -/
def run_sanitizer (env : ScanEnv) (ext : String) (data : List Nat) :
    Option (List Nat) × SanMeta :=
  if ext = ".pdf" then
    match env.pdfSanitize with
    | some f =>
      match f data with
      | .ok out => (some out, SanMeta.pdf)
      | .error e => (none, SanMeta.sanitizerError e)
    | none => (none, SanMeta.emptyMeta)
  else if ext = ".docx" ∨ ext = ".pptx" ∨ ext = ".xlsx" then
    match env.ooxmlSanitize with
    | some f =>
      match f (ext.drop 1) data with
      | .ok out => (some out, SanMeta.ooxml)
      | .error e => (none, SanMeta.sanitizerError e)
    | none => (none, SanMeta.emptyMeta)
  else if ext = ".rtf" then
    (some (sanitize_rtf_bytes data), SanMeta.rtf)
  else (none, SanMeta.emptyMeta)

def javascript_ids : List String := ["pdf_script_js", "ooxml_macro", "rtf_object"]

/-- `has_javascript_by_id or has_javascript_in_text` of `scan_bytes`. -/
def hasJavascriptFlag (fs : List Finding) : Bool :=
  (fs.any fun f => javascript_ids.contains f.id) ||
  (fs.any fun f =>
    containsBytes (strBytes "javascript") (lowerBytes (strBytes f.text)) ||
    containsBytes (strBytes "javascript") (lowerBytes (strBytes f.description)))

def hasHighFindings (fs : List Finding) : Bool :=
  fs.any fun f => f.severity = "high"

def hasMediumFindings (fs : List Finding) : Bool :=
  fs.any fun f => f.severity = "medium"

open Classical in
/-- The verdict cascade of `scan_bytes` (lines 310-324). -/
noncomputable def scan_verdict (fs : List Finding) (risk_score : ℝ) : String :=
  if hasJavascriptFlag fs || hasHighFindings fs then "malicious"
  else if hasMediumFindings fs ∧ risk_score ≥ 0.70 then "malicious"
  else if risk_score ≥ 0.85 then "malicious"
  else "benign"

/-- The risk-score override of the signature branch. -/
noncomputable def scan_risk (fs : List Finding) (risk_score : ℝ) : ℝ :=
  if hasJavascriptFlag fs || hasHighFindings fs then 1 else risk_score

/-- `model_scores` of the result dict. -/
structure ModelScores where
  lgbm : ℝ
  tree : ℝ
  dl : ℝ
  rules : ℝ

/-- The nested `report` dict (fields referenced by the specification claims;
`meta.sanitized` is `none` when the key is absent, as on the fallback path). -/
structure Report where
  version : Nat
  engine : String
  verdict : String
  riskScore : ℝ
  findings : List Finding
  metaSanitized : Option Bool
  metaException : Option String

/-- The dict returned by `scan_bytes` (the static `recommendations` string
lists are not referenced by any claim and are omitted). -/
structure ScanResult where
  ok : Bool
  verdict : String
  riskScore : ℝ
  modelScores : ModelScores
  findings : List Finding
  metaMime : String
  metaSize : Nat
  metaSha : List Nat
  metaExt : String
  cleanBytes : Option (List Nat)
  sanitizedBytes : Option (List Nat)
  sanMeta : SanMeta
  report : Report

/-- The structured fallback dict of the top-level `except` of `scan_bytes`. -/
noncomputable def fallback_result (data : List Nat) (filename : String)
    (msg : String) : ScanResult :=
  { ok := false
    verdict := "benign"
    riskScore := 0
    modelScores := ⟨0, 0, 0, 0⟩
    findings := [{ id := "fallback", severity := "info",
                   message := "Scanner fallback path used." }]
    metaMime := "application/octet-stream"
    metaSize := data.length
    metaSha := data
    metaExt := ext_from_name filename
    cleanBytes := none
    sanitizedBytes := none
    sanMeta := SanMeta.fallbackError msg
    report := { version := 1, engine := "safedocs-ensemble", verdict := "benign",
                riskScore := 0,
                findings := [{ id := "fallback", severity := "info", message := msg }],
                metaSanitized := none, metaException := some msg } }

/-- The local `findings` of `scan_bytes` (no ML import, so no debug findings
are appended). -/
def scanFindings (env : ScanEnv) (data : List Nat) (filename : String) : List Finding :=
  extract_findings env.pdfParse data (ext_from_name filename)

/-- The local `risk_score` of `scan_bytes` before the signature override:
`risk_score = float(signals.get("P_META", 0.0))` followed by the blend
`risk_score = min(1.0, 0.7*risk_score + 0.3*signals["P_LGBM"])`.  The blend
always executes: `_simple_heuristics` supplies the `P_LGBM` signal (its
`lgbm_like` score) on every scan, even though the ML import is dead. -/
noncomputable def scan_risk0 (data : List Nat) (ext : String) : ℝ :=
  min 1 (0.7 * (simple_heuristics data ext).pMeta +
    0.3 * (simple_heuristics data ext).pLgbm)

/-- The local `verdict` of `scan_bytes`. -/
noncomputable def scanVerdictOf (env : ScanEnv) (data : List Nat) (filename : String) : String :=
  scan_verdict (scanFindings env data filename) (scan_risk0 data (ext_from_name filename))

/-- `clean_bytes, san_meta` of `scan_bytes`: the sanitizer is run only on the
`verdict == "malicious"` branch; the benign branch keeps the original bytes
and marks `benign_not_sanitized`. -/
noncomputable def scanSanPair (env : ScanEnv) (data : List Nat) (filename : String) :
    Option (List Nat) × SanMeta :=
  if scanVerdictOf env data filename = "malicious" then
    run_sanitizer env (ext_from_name filename) data
  else (none, SanMeta.benignNotSanitized)

/-- The local `sanitized` flag: `clean_bytes is not None and len(clean_bytes) > 0`
on the malicious branch, `False` on the benign branch. -/
noncomputable def scanSanitized (env : ScanEnv) (data : List Nat) (filename : String) : Bool :=
  if scanVerdictOf env data filename = "malicious" then
    match (scanSanPair env data filename).1 with
    | some b => ! b.isEmpty
    | none => false
  else false

/-- `scan_bytes`. -/
noncomputable def scan_bytes (env : ScanEnv) (data : List Nat) (filename : String)
    (content_type : Option String) : ScanResult :=
  match env.crash with
  | some msg => fallback_result data filename msg
  | none =>
    { ok := true
      verdict := scanVerdictOf env data filename
      riskScore := scan_risk (scanFindings env data filename)
        (scan_risk0 data (ext_from_name filename))
      modelScores :=
        ⟨(simple_heuristics data (ext_from_name filename)).pLgbm,
         (simple_heuristics data (ext_from_name filename)).pTree,
         (simple_heuristics data (ext_from_name filename)).pDl,
         if hasJavascriptFlag (scanFindings env data filename) ||
            hasHighFindings (scanFindings env data filename) then 1
         else (simple_heuristics data (ext_from_name filename)).pRules⟩
      findings := scanFindings env data filename
      metaMime := content_type.getD (guess_mime (ext_from_name filename))
      metaSize := data.length
      metaSha := data
      metaExt := ext_from_name filename
      cleanBytes := if scanSanitized env data filename then (scanSanPair env data filename).1 else none
      sanitizedBytes := if scanSanitized env data filename then (scanSanPair env data filename).1 else none
      sanMeta := (scanSanPair env data filename).2
      report := { version := 1, engine := "safedocs-ensemble",
                  verdict := scanVerdictOf env data filename,
                  riskScore := scan_risk (scanFindings env data filename)
                    (scan_risk0 data (ext_from_name filename)),
                  findings := scanFindings env data filename,
                  metaSanitized := some (scanSanitized env data filename),
                  metaException := none } }

/-! ## PDF sanitizer byte scrub (engine/sanitizers/sanitize_pdf.py) -/

/-- `_neutralize_keyword`: length-preserving neutralization of one match. -/
def neutralize_keyword (val : List Nat) : List Nat :=
  if 2 < val.length then val.take 1 ++ [95] ++ val.drop 2
  else List.replicate val.length 95

/-- First token of the alternation (pattern order) matching case-insensitively
at the head of `l`; empty tokens are excluded from the compiled pattern
(`for t in chunk if t`).  Returns the match length. -/
def firstTokenAt (tokens : List (List Nat)) (l : List Nat) : Option Nat :=
  tokens.findSome? fun t =>
    if t ≠ [] ∧ ciStartsWith t l then some t.length else none

/-- One `rx.sub(_neutralize_keyword, text)` pass for a batch of tokens.  The
fuel is an upper bound on the remaining length (a step consumes ≥ 1 byte). -/
def scrubPassGo (tokens : List (List Nat)) : Nat → List Nat → List Nat
  | _, [] => []
  | 0, l => l
  | fuel + 1, b :: rest =>
    match firstTokenAt tokens (b :: rest) with
    | some n => neutralize_keyword ((b :: rest).take n) ++ scrubPassGo tokens fuel ((b :: rest).drop n)
    | none => b :: scrubPassGo tokens fuel rest

def scrubPass (tokens : List (List Nat)) (l : List Nat) : List Nat :=
  scrubPassGo tokens l.length l

/-- `tokens[i:i+BATCH]` batching with `BATCH = 100`. -/
def chunksOfGo {α : Type} (n : Nat) : Nat → List α → List (List α)
  | _, [] => []
  | 0, _ => []
  | fuel + 1, l => l.take n :: chunksOfGo n fuel (l.drop n)

def chunksOf {α : Type} (n : Nat) (l : List α) : List (List α) :=
  chunksOfGo n l.length l

/-- `_scrub_bytes_safely`: the decode/encode steps are the identity on
latin-1; each batch of 100 tokens is substituted in sequence.  The token list
is a parameter: `EXPANDED_TERMS = expand_terms()` iterates Python sets, so its
order varies run to run under hash randomization. -/
def scrub_bytes_safely (tokens : List (List Nat)) (data : List Nat) : List Nat :=
  (chunksOf 100 tokens).foldl (fun text chunk => scrubPass chunk text) data

/-- Environment of `sanitize_pdf`: `rebuild` is the external structural path
(PyPDF2 reader/writer plus the optional pikepdf polish) producing the cleaned
bytes, `none` when that path raises; `tokens` is `EXPANDED_TERMS`. -/
structure PdfSanEnv where
  rebuild : List Nat → Option (List Nat)
  tokens : List (List Nat)

/-- `sanitize_pdf` (engine/sanitizers/sanitize_pdf.py): on the structural path
the cleaned bytes are written and, when their hash equals the input hash, the
`\n% Sanitized_by_SafeDocs\n` marker is appended to the file; on the fallback
path `_scrub_bytes_safely` output gets `\n% Sanitized_Fallback\n` appended
when its hash equals the input hash.  Hash equality is modelled as byte
equality.  Returns (output bytes, status); the inner fallback is pure, so the
final `status: failed` copy branch is unreachable. -/
def sanitize_pdf_model (env : PdfSanEnv) (data : List Nat) : List Nat × String :=
  match env.rebuild data with
  | some cleaned =>
    (if cleaned = data then cleaned ++ strBytes "\n% Sanitized_by_SafeDocs\n" else cleaned, "ok")
  | none =>
    let cleaned := scrub_bytes_safely env.tokens data
    (if cleaned = data then cleaned ++ strBytes "\n% Sanitized_Fallback\n" else cleaned, "ok")

/-! ## Shared API logic (engine/api/shared_logic.py) -/

/-- `get_extension`: `fn[dot:].lower()` from the last dot, else `""`. -/
def get_extension (filename : String) : String :=
  let cs := filename.toList
  match cs.reverse.findIdx? (fun c => c = '.') with
  | none => ""
  | some j =>
    String.mk ((cs.drop (cs.length - 1 - j)).map fun c => Char.ofNat (pyLower c.toNat))

def ACCEPTED_TYPES : List (String × String) :=
  [(".pdf", "application/pdf"),
   (".docx", "application/vnd.openxmlformats-officedocument.wordprocessingml.document"),
   (".pptx", "application/vnd.openxmlformats-officedocument.presentationml.presentation"),
   (".xlsx", "application/vnd.openxmlformats-officedocument.spreadsheetml.sheet"),
   (".rtf", "application/rtf")]

/-- Environment of the API layer: the scan environment (shared_logic.py pulls
in the same sanitizer modules that core/scan_file.py uses), the external
`mimetypes.guess_type`, and the path-based pdf/ooxml sanitizers used by the
second stage of `sanitize_with_available_tools`. -/
structure ApiEnv where
  scanEnv : ScanEnv
  mimeGuess : String → Option String
  pdfSanitizePath : Option (List Nat → Except String (List Nat))
  ooxmlSanitizePath : Option (List Nat → Except String (List Nat))

/-- `get_content_type`. -/
def get_content_type (env : ApiEnv) (filename : String) : String :=
  match ACCEPTED_TYPES.lookup (get_extension filename) with
  | some m => m
  | none => (env.mimeGuess filename).getD "application/octet-stream"

/-- Result dict of `sanitize_with_available_tools` (the `sanitizer` meta dict
flattened into `engine`/`changed`/`errorMsg`). -/
structure SanTools where
  cleanBytes : List Nat
  engine : String
  changed : Bool
  errorMsg : Option String
deriving DecidableEq, Repr

/-- Stage outcome used inside `sanitize_with_available_tools`. -/
inductive StageOut where
  | got (bytes : List Nat) (engine : String) : StageOut
  | failed (engine : String) (msg : String) : StageOut
  | unavailable : StageOut

/-- `sanitize_with_available_tools`: bytes-style stage, then path-based stage,
then passthrough; `changed` compares SHA-256 digests (modelled as bytes). -/
def sanitize_with_available_tools (env : ApiEnv) (ext : String)
    (content : List Nat) : SanTools :=
  let stage1 : StageOut :=
    if ext = ".pdf" then
      match env.scanEnv.pdfSanitize with
      | some f =>
        match f content with
        | .ok b => .got b "sanitize_pdf_bytes"
        | .error e => .failed "" e
      | none => .unavailable
    else if ext = ".docx" ∨ ext = ".pptx" ∨ ext = ".xlsx" then
      match env.scanEnv.ooxmlSanitize with
      | some f =>
        match f (ext.drop 1) content with
        | .ok b => .got b "sanitize_ooxml_bytes"
        | .error e => .failed "" e
      | none => .unavailable
    else if ext = ".rtf" then
      .got (sanitize_rtf_bytes content) "sanitize_rtf_bytes"
    else .unavailable
  let afterStages : List Nat × String × Option String :=
    match stage1 with
    | .got b eng => (b, eng, none)
    | s1 =>
      let err1 : Option String := match s1 with | .failed _ e => some e | _ => none
      -- path-based stage: on an exception the original bytes are retained
      -- (out_path was never written); when no path sanitizer applies the
      -- passthrough branch marks the result explicitly.
      if ext = ".pdf" then
        match env.pdfSanitizePath with
        | some f =>
          match f content with
          | .ok b => (b, "sanitize_pdf", err1)
          | .error e => (content, "sanitize_pdf", some ("path_sanitizer_error: " ++ e))
        | none => (content, "passthrough", err1)
      else if ext = ".docx" ∨ ext = ".pptx" ∨ ext = ".xlsx" then
        match env.ooxmlSanitizePath with
        | some f =>
          match f content with
          | .ok b => (b, "sanitize_ooxml", err1)
          | .error e => (content, "sanitize_ooxml", some ("path_sanitizer_error: " ++ e))
        | none => (content, "passthrough", err1)
      else if ext = ".rtf" then
        ((sanitize_rtf_file content).1, "sanitize_rtf", err1)
      else (content, "passthrough", err1)
  { cleanBytes := afterStages.1
    engine := afterStages.2.1
    changed := afterStages.1 ≠ content
    errorMsg := afterStages.2.2 }

/-! ## Stateless API endpoint (engine/api/api_stateless.py, `scan_file`) -/

/-- The JSON bundle returned by the `/scan` endpoint (fields referenced by the
claims; the humanized findings/signals passthrough is omitted). -/
structure ApiResponse where
  ok : Bool
  filename : String
  contentType : String
  sha : List Nat
  size : Nat
  verdict : String
  riskScore : ℝ
  sanitized : Bool
  sanEngine : String
  sanError : Option String
  cleanSha : List Nat
  cleanSize : Nat
  cleanVerdict : String
  cleanRisk : ℝ
  cleanBytes : List Nat

/-- The `/scan` endpoint: scan the original, then sanitize (using the
scanner's `clean_bytes` when present, otherwise `sanitize_with_available_tools`
— with no verdict gate), then re-scan the clean bytes.  `scan_bytes` always
returns a dict with a verdict in {"benign","malicious"}, so the
`verdict in (None, "scan_error")` re-derivation branch is dead and omitted. -/
noncomputable def api_scan_file (env : ApiEnv) (raw : List Nat)
    (filename : String) : ApiResponse :=
  let content_type := get_content_type env filename
  let ext := get_extension filename
  let raw_result := scan_bytes env.scanEnv raw filename (some content_type)
  let san_out : SanTools :=
    match raw_result.cleanBytes with
    | some cb => { cleanBytes := cb, engine := "scanner_clean_bytes",
                   changed := cb ≠ raw, errorMsg := none }
    | none => sanitize_with_available_tools env ext raw
  let clean_result := scan_bytes env.scanEnv san_out.cleanBytes
    ("clean_" ++ filename) (some content_type)
  { ok := true
    filename := filename
    contentType := content_type
    sha := raw
    size := raw.length
    verdict := raw_result.verdict
    riskScore := raw_result.riskScore
    sanitized := san_out.changed
    sanEngine := san_out.engine
    sanError := san_out.errorMsg
    cleanSha := san_out.cleanBytes
    cleanSize := san_out.cleanBytes.length
    cleanVerdict := clean_result.verdict
    cleanRisk := clean_result.riskScore
    cleanBytes := san_out.cleanBytes }

/-! ## Specification-side definitions (for refinement comparison only) -/

/-- Modelled from the spec: the verdict cascade of section 4.4 (thresholds
0.60/0.30/0.75/0.50), written from the specification's words, to be compared
with the source-derived `scan_verdict`. -/
noncomputable def specVerdictCascade (ruleScore : ℝ) (classifier : Option ℝ) : String :=
  if ruleScore ≥ 0.60 then "malicious"
  else if ruleScore ≥ 0.30 then "suspicious"
  else
    match classifier with
    | some p =>
      if p ≥ 0.75 then "malicious"
      else if p ≥ 0.50 then "suspicious"
      else "benign"
    | none => "benign"

/-- Modelled from the spec: `compositeScore = max(ruleScore, classifierProbability-or-0)`. -/
noncomputable def specCompositeScore (ruleScore : ℝ) (classifier : Option ℝ) : ℝ :=
  max ruleScore (classifier.getD 0)

/-! ## Concrete instances used by witnesses and counterexamples -/

/-- Environment with no external libraries available and no internal failure:
`pikepdf` absent (regex fallback), pdf/ooxml sanitizer imports absent. -/
def env0 : ScanEnv :=
  { pdfParse := fun _ => none, pdfSanitize := none, ooxmlSanitize := none,
    crash := none }

def apiEnv0 : ApiEnv :=
  { scanEnv := env0, mimeGuess := fun _ => none,
    pdfSanitizePath := none, ooxmlSanitizePath := none }

/-- `"aaaaa"`: a uniform-byte buffer with zero entropy and no rule hits. -/
def aBytes : List Nat := strBytes "aaaaa"

/-- 16 bytes containing exactly the suspicious strings `mshta` and `autoopen`,
with every byte frequency a power of two (dyadic entropy 13/32). -/
def d2Bytes : List Nat := strBytes "mshtaautoopenmsh"

/-- An RTF whose whole text is one `\object ... \endobj` span. -/
def objBytes : List Nat := strBytes "\\object \\endobj"

def helloBytes : List Nat := strBytes "hello"

/-- A PDF-sanitizer environment whose structural rebuild returns its input
unchanged (exercising the hash-equality marker branch). -/
def pdfSanEnv0 : PdfSanEnv := { rebuild := fun d => some d, tokens := [] }

/-- `env0` with an internal exception (message `"boom"`) abstracted in. -/
def envCrash : ScanEnv := { env0 with crash := some "boom" }

/-! # Theorems

Helper lemmas first, then one theorem per claim (with witnesses and
counterexamples where required). -/

theorem logb_two_pow_inv (k : ℕ) : Real.logb 2 (((2:ℝ)^k)⁻¹) = -k := by
  rw [Real.logb_inv, Real.logb_pow, Real.logb_self_eq_one (by norm_num), mul_one]

theorem entropy_h_support (s : List Nat) (support : Finset ℕ)
    (hsub : support ⊆ Finset.range 256) (hmem : ∀ x ∈ s, x ∈ support) :
    entropy_h s = ∑ b ∈ support,
      (if s.count b = 0 then 0
       else -((s.count b : ℝ) / s.length * Real.logb 2 ((s.count b : ℝ) / s.length))) := by
  unfold entropy_h
  refine (Finset.sum_subset hsub fun b _ hbS => ?_).symm
  have hc : s.count b = 0 := List.count_eq_zero.2 fun hm => hbS (hmem b hm)
  simp [hc]

theorem entropy_h_d2 : entropy_h d2Bytes = 13/4 := by
  rw [entropy_h_support d2Bytes {97, 101, 104, 109, 110, 111, 112, 115, 116, 117}
    (by decide) (by decide)]
  have h97 : d2Bytes.count 97 = 2 := by decide
  have h101 : d2Bytes.count 101 = 1 := by decide
  have h104 : d2Bytes.count 104 = 2 := by decide
  have h109 : d2Bytes.count 109 = 2 := by decide
  have h110 : d2Bytes.count 110 = 1 := by decide
  have h111 : d2Bytes.count 111 = 2 := by decide
  have h112 : d2Bytes.count 112 = 1 := by decide
  have h115 : d2Bytes.count 115 = 2 := by decide
  have h116 : d2Bytes.count 116 = 2 := by decide
  have h117 : d2Bytes.count 117 = 1 := by decide
  have hl : d2Bytes.length = 16 := by decide
  have l8 : Real.logb 2 ((1:ℝ)/8) = -3 := by
    rw [show (1:ℝ)/8 = ((2:ℝ)^(3:ℕ))⁻¹ by norm_num, logb_two_pow_inv]; norm_num
  have l16 : Real.logb 2 ((1:ℝ)/16) = -4 := by
    rw [show (1:ℝ)/16 = ((2:ℝ)^(4:ℕ))⁻¹ by norm_num, logb_two_pow_inv]; norm_num
  simp [Finset.sum_insert, Finset.mem_insert, Finset.mem_singleton,
    h97, h101, h104, h109, h110, h111, h112, h115, h116, h117, hl]
  have lg16 : Real.logb 2 (16:ℝ) = 4 := by
    rw [show (16:ℝ) = (2:ℝ)^(4:ℕ) by norm_num, Real.logb_pow,
      Real.logb_self_eq_one (by norm_num)]; norm_num
  norm_num [lg16]
  rw [l8]
  norm_num

theorem entropy_h_aBytes : entropy_h aBytes = 0 := by
  rw [entropy_h_support aBytes {97} (by decide) (by decide)]
  have hc : aBytes.count 97 = 5 := by decide
  have hl : aBytes.length = 5 := by decide
  rw [Finset.sum_singleton, hc, hl, if_neg (by norm_num)]
  norm_num

theorem byte_entropy_aBytes : byte_entropy aBytes = 0 := by
  unfold byte_entropy
  rw [if_neg (by decide : ¬(aBytes = []))]
  rw [show aBytes.take 65536 = aBytes from by decide, entropy_h_aBytes]
  norm_num

theorem byte_entropy_d2 : byte_entropy d2Bytes = 13/32 := by
  unfold byte_entropy
  rw [if_neg (by decide : ¬(d2Bytes = []))]
  rw [show d2Bytes.take 65536 = d2Bytes from by decide, entropy_h_d2]
  norm_num

theorem pMeta_mem (data : List Nat) (ext : String) :
    0 ≤ (simple_heuristics data ext).pMeta ∧ (simple_heuristics data ext).pMeta ≤ 1 := by
  unfold simple_heuristics
  exact ⟨le_max_left _ _, max_le zero_le_one (min_le_left _ _)⟩

theorem byte_entropy_nonneg (data : List Nat) : 0 ≤ byte_entropy data := by
  unfold byte_entropy
  split_ifs
  · exact le_refl 0
  · refine le_min zero_le_one (div_nonneg ?_ (by norm_num))
    unfold entropy_h
    refine Finset.sum_nonneg fun b _ => ?_
    split_ifs with hc
    · exact le_refl 0
    · have hcpos : 0 < (data.take 65536).count b := Nat.pos_of_ne_zero hc
      have hmem : b ∈ data.take 65536 := List.count_pos_iff.mp hcpos
      have hlen : 0 < (data.take 65536).length :=
        List.length_pos.mpr (List.ne_nil_of_mem hmem)
      have hple : ((data.take 65536).count b : ℝ) / (data.take 65536).length ≤ 1 := by
        rw [div_le_one (by exact_mod_cast hlen)]
        exact_mod_cast List.count_le_length b (data.take 65536)
      have hppos : 0 < ((data.take 65536).count b : ℝ) / (data.take 65536).length := by
        apply div_pos
        · exact_mod_cast hcpos
        · exact_mod_cast hlen
      have hlog : Real.logb 2 (((data.take 65536).count b : ℝ) /
          (data.take 65536).length) ≤ 0 :=
        Real.logb_nonpos (by norm_num) hppos.le hple
      rw [neg_nonneg]
      exact mul_nonpos_of_nonneg_of_nonpos hppos.le hlog

theorem pLgbm_nonneg (data : List Nat) (ext : String) :
    0 ≤ (simple_heuristics data ext).pLgbm := by
  unfold simple_heuristics
  dsimp only
  have he := byte_entropy_nonneg data
  have hr : (0:ℝ) ≤ min 1 ((rules_hits data : ℝ) / 5) :=
    le_min zero_le_one (by positivity)
  have hb : (0:ℝ) ≤ (if ext = ".pdf" ∨ ext = ".rtf" then (0.05:ℝ)
      else if ext = ".docx" ∨ ext = ".pptx" ∨ ext = ".xlsx" then 0.08 else 0) := by
    split_ifs <;> norm_num
  have ht : (0:ℝ) ≤ min 1 (0.5 * byte_entropy data +
      0.7 * min 1 ((rules_hits data : ℝ) / 5) +
      (if ext = ".pdf" ∨ ext = ".rtf" then (0.05:ℝ)
       else if ext = ".docx" ∨ ext = ".pptx" ∨ ext = ".xlsx" then 0.08 else 0)) :=
    le_min zero_le_one (by nlinarith)
  exact le_min zero_le_one (by nlinarith)

theorem scan_risk0_mem (data : List Nat) (ext : String) :
    0 ≤ scan_risk0 data ext ∧ scan_risk0 data ext ≤ 1 := by
  have hmeta := (pMeta_mem data ext).1
  have hlgbm := pLgbm_nonneg data ext
  unfold scan_risk0
  exact ⟨le_min zero_le_one (by nlinarith), min_le_left _ _⟩

theorem scan_verdict_benign (fs : List Finding) (risk : ℝ)
    (h1 : (hasJavascriptFlag fs || hasHighFindings fs) = false)
    (h2 : hasMediumFindings fs = false ∨ risk < 0.70)
    (h3 : risk < 0.85) : scan_verdict fs risk = "benign" := by
  unfold scan_verdict
  rw [if_neg (by simp [h1]), if_neg ?hmed, if_neg (not_le.mpr h3)]
  case hmed =>
    rcases h2 with h2 | h2
    · rintro ⟨hm, _⟩; simp [h2] at hm
    · rintro ⟨_, hr⟩; exact absurd hr (not_le.mpr h2)

theorem scan_verdict_override (fs : List Finding) (risk : ℝ)
    (h : (hasJavascriptFlag fs || hasHighFindings fs) = true) :
    scan_verdict fs risk = "malicious" ∧ scan_risk fs risk = 1 := by
  unfold scan_verdict scan_risk
  rw [if_pos h, if_pos h]
  exact ⟨rfl, rfl⟩

theorem scan_verdict_malicious_iff (fs : List Finding) (risk : ℝ)
    (hor : (hasJavascriptFlag fs || hasHighFindings fs) = false) :
    (scan_verdict fs risk = "malicious" ↔
      (hasMediumFindings fs = true ∧ risk ≥ 0.70) ∨ risk ≥ 0.85) ∧
    scan_verdict fs risk ≠ "suspicious" := by
  unfold scan_verdict
  rw [if_neg (by simp [hor])]
  by_cases hA : hasMediumFindings fs = true ∧ risk ≥ 0.70
  · rw [if_pos hA]
    exact ⟨⟨fun _ => Or.inl hA, fun _ => rfl⟩, by decide⟩
  · rw [if_neg hA]
    by_cases hB : risk ≥ 0.85
    · rw [if_pos hB]
      exact ⟨⟨fun _ => Or.inr hB, fun _ => rfl⟩, by decide⟩
    · rw [if_neg hB]
      refine ⟨⟨fun hfalse => absurd hfalse (by decide), ?_⟩, by decide⟩
      rintro (hAc | hBc)
      · exact absurd hAc hA
      · exact absurd hBc hB

theorem scan_risk_not_overridden (fs : List Finding) (risk : ℝ)
    (hor : (hasJavascriptFlag fs || hasHighFindings fs) = false) :
    scan_risk fs risk = risk := by
  unfold scan_risk
  rw [if_neg (by simp [hor])]

theorem scan_bytes_ok (env : ScanEnv) (data : List Nat) (fn : String)
    (ct : Option String) (h : env.crash = none) :
    scan_bytes env data fn ct =
    { ok := true
      verdict := scanVerdictOf env data fn
      riskScore := scan_risk (scanFindings env data fn) (scan_risk0 data (ext_from_name fn))
      modelScores :=
        ⟨(simple_heuristics data (ext_from_name fn)).pLgbm,
         (simple_heuristics data (ext_from_name fn)).pTree,
         (simple_heuristics data (ext_from_name fn)).pDl,
         if hasJavascriptFlag (scanFindings env data fn) ||
            hasHighFindings (scanFindings env data fn) then 1
         else (simple_heuristics data (ext_from_name fn)).pRules⟩
      findings := scanFindings env data fn
      metaMime := ct.getD (guess_mime (ext_from_name fn))
      metaSize := data.length
      metaSha := data
      metaExt := ext_from_name fn
      cleanBytes := if scanSanitized env data fn then (scanSanPair env data fn).1 else none
      sanitizedBytes := if scanSanitized env data fn then (scanSanPair env data fn).1 else none
      sanMeta := (scanSanPair env data fn).2
      report := { version := 1, engine := "safedocs-ensemble",
                  verdict := scanVerdictOf env data fn,
                  riskScore := scan_risk (scanFindings env data fn)
                    (scan_risk0 data (ext_from_name fn)),
                  findings := scanFindings env data fn,
                  metaSanitized := some (scanSanitized env data fn),
                  metaException := none } } := by
  unfold scan_bytes
  rw [h]

theorem scan_bytes_crashed (env : ScanEnv) (data : List Nat) (fn : String)
    (ct : Option String) (msg : String) (h : env.crash = some msg) :
    scan_bytes env data fn ct = fallback_result data fn msg := by
  unfold scan_bytes
  rw [h]

theorem scan_risk0_aBytes : scan_risk0 aBytes ".rtf" = 251/10000 := by
  unfold scan_risk0 simple_heuristics
  have hr : rules_hits aBytes = 0 := by decide
  rw [byte_entropy_aBytes, hr]
  norm_num [min_def, max_def]

theorem scan_risk0_d2 : scan_risk0 d2Bytes ".rtf" = 190899/400000 := by
  unfold scan_risk0 simple_heuristics
  have hr : rules_hits d2Bytes = 2 := by decide
  rw [byte_entropy_d2, hr]
  norm_num [min_def, max_def]

theorem scanVerdict_aBytes (fn : String) (hfn : ext_from_name fn = ".rtf") :
    scanVerdictOf env0 aBytes fn = "benign" := by
  unfold scanVerdictOf scanFindings
  rw [hfn]
  apply scan_verdict_benign
  · decide
  · left; decide
  · rw [scan_risk0_aBytes]; norm_num

theorem scanVerdict_d2 : scanVerdictOf env0 d2Bytes "doc.rtf" = "benign" := by
  unfold scanVerdictOf scanFindings
  rw [show ext_from_name "doc.rtf" = ".rtf" from by decide]
  apply scan_verdict_benign
  · decide
  · right; rw [scan_risk0_d2]; norm_num
  · rw [scan_risk0_d2]; norm_num

theorem scanSanPair_not_malicious (env : ScanEnv) (data : List Nat) (fn : String)
    (h : scanVerdictOf env data fn ≠ "malicious") :
    scanSanPair env data fn = (none, SanMeta.benignNotSanitized) := by
  unfold scanSanPair; rw [if_neg h]

theorem scanSanitized_not_malicious (env : ScanEnv) (data : List Nat) (fn : String)
    (h : scanVerdictOf env data fn ≠ "malicious") :
    scanSanitized env data fn = false := by
  unfold scanSanitized; rw [if_neg h]

theorem scan_not_malicious_fields (env : ScanEnv) (data : List Nat) (fn : String)
    (ct : Option String) (h : (scan_bytes env data fn ct).verdict ≠ "malicious") :
    (scan_bytes env data fn ct).cleanBytes = none ∧
    (scan_bytes env data fn ct).sanitizedBytes = none ∧
    (env.crash = none → (scan_bytes env data fn ct).sanMeta = SanMeta.benignNotSanitized) := by
  cases hc : env.crash with
  | some msg =>
    rw [scan_bytes_crashed _ _ _ _ _ hc]
    exact ⟨rfl, rfl, fun hn => Option.noConfusion hn⟩
  | none =>
    rw [scan_bytes_ok _ _ _ _ hc] at h ⊢
    have hv : scanVerdictOf env data fn ≠ "malicious" := h
    refine ⟨?_, ?_, fun _ => ?_⟩
    · dsimp only
      rw [scanSanitized_not_malicious _ _ _ hv]
      simp
    · dsimp only
      rw [scanSanitized_not_malicious _ _ _ hv]
      simp
    · dsimp only
      rw [scanSanPair_not_malicious _ _ _ hv]

theorem deepScanAux_take : ∀ (objs : List PdfObj) (k : Nat),
    deepScanAux objs k = deepScanAux (objs.take (1000 - k)) k := by
  intro objs
  induction objs with
  | nil => intro k; simp [deepScanAux]
  | cons o rest ih =>
    intro k
    by_cases hk : 1000 < k + 1
    · rw [show 1000 - k = 0 from by omega]
      simp [deepScanAux, hk]
    · rw [show 1000 - k = (1000 - (k + 1)) + 1 from by omega, List.take_succ_cons]
      unfold deepScanAux
      rw [if_neg hk, if_neg hk]
      cases hb : o.isDict && (o.hasJSKey || o.sDangerous)
      · simp only [Bool.false_eq_true, if_neg]
        exact ih (k + 1)
      · simp

theorem neutralize_keyword_length (m : List Nat) :
    (neutralize_keyword m).length = m.length := by
  unfold neutralize_keyword
  split_ifs with h
  · simp [List.length_take, List.length_drop]; omega
  · simp

theorem firstTokenAt_bounds (tokens : List (List Nat)) (l : List Nat) (n : Nat)
    (h : firstTokenAt tokens l = some n) : 1 ≤ n ∧ n ≤ l.length := by
  unfold firstTokenAt at h
  induction tokens with
  | nil => simp at h
  | cons t ts ih =>
    rw [List.findSome?_cons] at h
    by_cases hc : t ≠ [] ∧ ciStartsWith t l
    · rw [if_pos hc] at h
      obtain ⟨hne, hpre⟩ := hc
      cases h
      constructor
      · exact List.length_pos.mpr hne
      · have := List.isPrefixOf_iff_prefix.mp hpre
        have hle := this.length_le
        simpa using hle
    · rw [if_neg hc] at h
      exact ih h

theorem scrubPassGo_length (tokens : List (List Nat)) :
    ∀ (fuel : Nat) (l : List Nat), (scrubPassGo tokens fuel l).length = l.length := by
  intro fuel
  induction fuel with
  | zero => intro l; cases l <;> rfl
  | succ fuel ih =>
    intro l
    cases l with
    | nil => rfl
    | cons b rest =>
      cases hf : firstTokenAt tokens (b :: rest) with
      | none => simp [scrubPassGo, hf, ih]
      | some n =>
        obtain ⟨h1, h2⟩ := firstTokenAt_bounds _ _ _ hf
        simp only [scrubPassGo, hf, List.length_append, neutralize_keyword_length,
          List.length_take, List.length_drop, ih]
        simp at h2 ⊢
        omega

theorem scrub_foldl_length : ∀ (chunks : List (List (List Nat))) (text : List Nat),
    (chunks.foldl (fun t c => scrubPass c t) text).length = text.length := by
  intro chunks
  induction chunks with
  | nil => intro text; rfl
  | cons c cs ih =>
    intro text
    simp only [List.foldl_cons, ih]
    unfold scrubPass
    exact scrubPassGo_length c _ _

/-! ## Claim C1 -/

/-- C1 (counterexample): a benign `.rtf` upload through the stateless API
endpoint gets a `benign` verdict, yet the response's sanitizer metadata shows
that `sanitize_with_available_tools` invoked the RTF sanitizer
(`engine = "sanitize_rtf_bytes"`) — the endpoint has no verdict gate, so the
claim "when the verdict is Benign the sanitizer is never invoked" is false. -/
theorem c1_counterexample :
    (api_scan_file apiEnv0 aBytes "a.rtf").verdict = "benign" ∧
    (api_scan_file apiEnv0 aBytes "a.rtf").sanEngine = "sanitize_rtf_bytes" ∧
    (api_scan_file apiEnv0 aBytes "a.rtf").cleanBytes = aBytes := by
  have hv : scanVerdictOf env0 aBytes "a.rtf" = "benign" :=
    scanVerdict_aBytes "a.rtf" (by decide)
  have hns : scanSanitized env0 aBytes "a.rtf" = false :=
    scanSanitized_not_malicious env0 aBytes "a.rtf" (by rw [hv]; decide)
  simp only [api_scan_file, show apiEnv0.scanEnv = env0 from rfl]
  rw [scan_bytes_ok env0 aBytes "a.rtf" _ rfl]
  simp only [hns, if_false, Bool.false_eq_true, hv]
  exact ⟨trivial, by decide, by decide⟩

/-- C1 (amended): in the core `scan_bytes`, a non-malicious verdict means the
sanitizer is not invoked and no rewritten bytes are emitted (`clean_bytes` and
`sanitized_bytes` are `None`, and the sanitizer metadata is the explicit
`benign_not_sanitized` marker); the stateless API endpoint, however, always
runs `sanitize_with_available_tools` on the uploaded bytes when the scanner
returned no clean bytes — in particular on every non-malicious verdict. -/
theorem c1_sanitizer_gating :
    (∀ (env : ScanEnv) (data : List Nat) (fn : String) (ct : Option String),
      (scan_bytes env data fn ct).verdict ≠ "malicious" →
      (scan_bytes env data fn ct).cleanBytes = none ∧
      (scan_bytes env data fn ct).sanitizedBytes = none ∧
      (env.crash = none → (scan_bytes env data fn ct).sanMeta = SanMeta.benignNotSanitized)) ∧
    (∀ (env : ApiEnv) (raw : List Nat) (fn : String),
      (scan_bytes env.scanEnv raw fn (some (get_content_type env fn))).verdict ≠ "malicious" →
      (api_scan_file env raw fn).sanEngine =
        (sanitize_with_available_tools env (get_extension fn) raw).engine ∧
      (api_scan_file env raw fn).cleanBytes =
        (sanitize_with_available_tools env (get_extension fn) raw).cleanBytes) := by
  refine ⟨scan_not_malicious_fields, ?_⟩
  intro env raw fn h
  have hcb := (scan_not_malicious_fields env.scanEnv raw fn _ h).1
  simp only [api_scan_file]
  rw [hcb]
  exact ⟨rfl, rfl⟩

/-- C1 (witness): both parts of `c1_sanitizer_gating` applied at the concrete
benign input `"aaaaa"` with filename `a.rtf`. -/
theorem c1_sanitizer_gating_witness :
    ((scan_bytes env0 aBytes "a.rtf" none).verdict ≠ "malicious" ∧
     (scan_bytes env0 aBytes "a.rtf" none).cleanBytes = none) ∧
    ((scan_bytes apiEnv0.scanEnv aBytes "a.rtf"
        (some (get_content_type apiEnv0 "a.rtf"))).verdict ≠ "malicious" ∧
     (api_scan_file apiEnv0 aBytes "a.rtf").sanEngine =
       (sanitize_with_available_tools apiEnv0 (get_extension "a.rtf") aBytes).engine) := by
  have h1 : (scan_bytes env0 aBytes "a.rtf" none).verdict ≠ "malicious" := by
    rw [scan_bytes_ok _ _ _ _ rfl]
    dsimp only
    rw [scanVerdict_aBytes "a.rtf" (by decide)]
    decide
  have h2 : (scan_bytes apiEnv0.scanEnv aBytes "a.rtf"
      (some (get_content_type apiEnv0 "a.rtf"))).verdict ≠ "malicious" := by
    rw [scan_bytes_ok _ _ _ _ rfl]
    dsimp only
    rw [show apiEnv0.scanEnv = env0 from rfl, scanVerdict_aBytes "a.rtf" (by decide)]
    decide
  exact ⟨⟨h1, (c1_sanitizer_gating.1 env0 aBytes "a.rtf" none h1).1⟩,
         ⟨h2, (c1_sanitizer_gating.2 apiEnv0 aBytes "a.rtf" h2).1⟩⟩

/-! ## Claim C2 -/

/-- C2 (counterexample): for the 16-byte `.rtf` input `d2Bytes` every finding
has severity `medium` (none is `critical` or `high`), the rule score is
2/5 = 0.40 and no classifier is available, so the claimed cascade yields
`Suspicious` with composite 0.40; the code yields verdict `benign` with a
risk score of 190899/400000 = 0.4772475 — the 0.60/0.30/0.75/0.50 cascade is not what the
code computes. -/
theorem c2_counterexample :
    (∀ f ∈ (scan_bytes env0 d2Bytes "doc.rtf" none).findings,
       f.severity ≠ "critical" ∧ f.severity ≠ "high") ∧
    (simple_heuristics d2Bytes ".rtf").pRules = 2/5 ∧
    specVerdictCascade ((simple_heuristics d2Bytes ".rtf").pRules) none = "suspicious" ∧
    (scan_bytes env0 d2Bytes "doc.rtf" none).verdict = "benign" ∧
    (scan_bytes env0 d2Bytes "doc.rtf" none).riskScore ≠
      specCompositeScore ((simple_heuristics d2Bytes ".rtf").pRules) none := by
  have hrules : (simple_heuristics d2Bytes ".rtf").pRules = 2/5 := by
    unfold simple_heuristics
    have hr : rules_hits d2Bytes = 2 := by decide
    rw [hr]; norm_num [min_def]
  have hrw := scan_bytes_ok env0 d2Bytes "doc.rtf" none rfl
  refine ⟨?_, hrules, ?_, ?_, ?_⟩
  · rw [hrw]; dsimp only
    decide
  · rw [hrules]; unfold specVerdictCascade
    rw [if_neg (by norm_num), if_pos (by norm_num)]
  · rw [hrw]; dsimp only
    exact scanVerdict_d2
  · rw [hrw]; dsimp only
    have hor : (hasJavascriptFlag (scanFindings env0 d2Bytes "doc.rtf") ||
        hasHighFindings (scanFindings env0 d2Bytes "doc.rtf")) = false := by decide
    rw [scan_risk_not_overridden _ _ hor,
      show ext_from_name "doc.rtf" = ".rtf" from by decide, scan_risk0_d2, hrules]
    unfold specCompositeScore
    simp only [Option.getD]
    norm_num [max_def]

/-- C2 (amended): when no top-severity (`high`) finding and no javascript flag
is present, the code's verdict cascade is: `malicious` iff (a `medium` finding
exists and the blended heuristic score
`min(1, 0.7*meta_score + 0.3*lgbm_like)` is at least 0.70) or that blended
score is at least 0.85; the verdict `suspicious` is never produced; and the
reported composite risk score is that blended heuristic score (not
`max(ruleScore, classifierProbability)`). -/
theorem c2_verdict_cascade :
    ∀ (env : ScanEnv) (data : List Nat) (fn : String) (ct : Option String),
    env.crash = none →
    hasHighFindings (scanFindings env data fn) = false →
    hasJavascriptFlag (scanFindings env data fn) = false →
    (((scan_bytes env data fn ct).verdict = "malicious" ↔
       (hasMediumFindings (scanFindings env data fn) = true ∧
        scan_risk0 data (ext_from_name fn) ≥ 0.70) ∨
       scan_risk0 data (ext_from_name fn) ≥ 0.85) ∧
     (scan_bytes env data fn ct).verdict ≠ "suspicious" ∧
     (scan_bytes env data fn ct).riskScore = scan_risk0 data (ext_from_name fn)) := by
  intro env data fn ct hc hh hj
  rw [scan_bytes_ok _ _ _ _ hc]
  dsimp only
  have hor : (hasJavascriptFlag (scanFindings env data fn) ||
      hasHighFindings (scanFindings env data fn)) = false := by simp [hh, hj]
  have h1 := scan_verdict_malicious_iff (scanFindings env data fn)
    (scan_risk0 data (ext_from_name fn)) hor
  exact ⟨h1.1, h1.2, scan_risk_not_overridden _ _ hor⟩

/-- C2 (witness): `c2_verdict_cascade` applied at the concrete benign input
`"aaaaa"` with filename `a.rtf`, discharging all three hypotheses. -/
theorem c2_verdict_cascade_witness :
    env0.crash = none ∧
    hasHighFindings (scanFindings env0 aBytes "a.rtf") = false ∧
    hasJavascriptFlag (scanFindings env0 aBytes "a.rtf") = false ∧
    (((scan_bytes env0 aBytes "a.rtf" none).verdict = "malicious" ↔
       (hasMediumFindings (scanFindings env0 aBytes "a.rtf") = true ∧
        scan_risk0 aBytes (ext_from_name "a.rtf") ≥ 0.70) ∨
       scan_risk0 aBytes (ext_from_name "a.rtf") ≥ 0.85) ∧
     (scan_bytes env0 aBytes "a.rtf" none).verdict ≠ "suspicious" ∧
     (scan_bytes env0 aBytes "a.rtf" none).riskScore =
       scan_risk0 aBytes (ext_from_name "a.rtf")) :=
  ⟨rfl, by decide, by decide, c2_verdict_cascade env0 aBytes "a.rtf" none rfl
    (by decide) (by decide)⟩

/-! ## Claim C3 -/

/-- C3 (confirmed): when an internal exception occurs anywhere in the body of
`scan_bytes` (abstracted by `env.crash = some msg`), the caller still receives
a structured result: verdict `benign`, exactly one diagnostic `info` finding
(both top-level and inside the nested report), no clean/sanitized bytes, the
report never marked as sanitized, and `ok = false`.  Totality itself is
structural: the embedding of `scan_bytes` is a total function and the
catastrophic path returns this dict rather than propagating the exception. -/
theorem c3_scan_total_fallback :
    ∀ (env : ScanEnv) (data : List Nat) (fn : String) (ct : Option String)
    (msg : String), env.crash = some msg →
    (scan_bytes env data fn ct).verdict = "benign" ∧
    (scan_bytes env data fn ct).findings =
      [{ id := "fallback", severity := "info", message := "Scanner fallback path used." }] ∧
    (scan_bytes env data fn ct).report.verdict = "benign" ∧
    (scan_bytes env data fn ct).report.findings.length = 1 ∧
    (scan_bytes env data fn ct).cleanBytes = none ∧
    (scan_bytes env data fn ct).sanitizedBytes = none ∧
    (scan_bytes env data fn ct).report.metaSanitized ≠ some true ∧
    (scan_bytes env data fn ct).ok = false := by
  intro env data fn ct msg h
  rw [scan_bytes_crashed _ _ _ _ _ h]
  exact ⟨rfl, rfl, rfl, rfl, rfl, rfl, fun hfalse => Option.noConfusion hfalse, rfl⟩

/-- C3 (witness): `c3_scan_total_fallback` at a concrete crashing environment. -/
theorem c3_scan_total_fallback_witness :
    envCrash.crash = some "boom" ∧
    (scan_bytes envCrash [0] "f.bin" none).verdict = "benign" ∧
    (scan_bytes envCrash [0] "f.bin" none).findings =
      [{ id := "fallback", severity := "info", message := "Scanner fallback path used." }] :=
  ⟨rfl, (c3_scan_total_fallback envCrash [0] "f.bin" none "boom" rfl).1,
   (c3_scan_total_fallback envCrash [0] "f.bin" none "boom" rfl).2.1⟩

/-! ## Claim C4 -/

/-- C4 (code bug, failing input): the non-empty RTF buffer consisting of a
single `\object ... \endobj` span sanitizes to the empty byte string, and
`sanitize_with_available_tools` passes the empty output through as
`clean_bytes` with `changed = true` instead of returning the original bytes
with a failure mark — violating the invariant that sanitization of non-empty
input never returns empty bytes. -/
theorem c4_empty_sanitizer_output :
    objBytes ≠ [] ∧ sanitize_rtf_bytes objBytes = [] ∧
    (sanitize_with_available_tools apiEnv0 ".rtf" objBytes).cleanBytes = [] ∧
    (sanitize_with_available_tools apiEnv0 ".rtf" objBytes).engine = "sanitize_rtf_bytes" ∧
    (sanitize_with_available_tools apiEnv0 ".rtf" objBytes).changed = true := by decide

/-! ## Claim C5 -/

/-- C5 (confirmed): any finding of the code's top severity tier (`"high"` —
the source has no `critical` label; `high` is the tier the override keys on)
forces the composite risk score to exactly 1.0 and the verdict to malicious,
overriding the heuristic score. -/
theorem c5_top_severity_override :
    ∀ (env : ScanEnv) (data : List Nat) (fn : String) (ct : Option String),
    env.crash = none →
    hasHighFindings (scanFindings env data fn) = true →
    (scan_bytes env data fn ct).riskScore = 1 ∧
    (scan_bytes env data fn ct).verdict = "malicious" := by
  intro env data fn ct hc hh
  rw [scan_bytes_ok _ _ _ _ hc]
  dsimp only
  have hor : (hasJavascriptFlag (scanFindings env data fn) ||
      hasHighFindings (scanFindings env data fn)) = true := by simp [hh]
  have h := scan_verdict_override (scanFindings env data fn)
    (scan_risk0 data (ext_from_name fn)) hor
  exact ⟨h.2, h.1⟩

/-- C5 (witness): an RTF containing `\object` produces a high-severity finding
and `c5_top_severity_override` applies. -/
theorem c5_top_severity_override_witness :
    env0.crash = none ∧
    hasHighFindings (scanFindings env0 objBytes "doc.rtf") = true ∧
    (scan_bytes env0 objBytes "doc.rtf" none).riskScore = 1 ∧
    (scan_bytes env0 objBytes "doc.rtf" none).verdict = "malicious" :=
  ⟨rfl, by decide, (c5_top_severity_override env0 objBytes "doc.rtf" none rfl (by decide)).1,
   (c5_top_severity_override env0 objBytes "doc.rtf" none rfl (by decide)).2⟩

/-! ## Claim C6 -/

/-- C6 (counterexample): the RTF sanitizer reports success (`status: ok`) on
the pattern-free input `"hello"` while returning byte-identical output, and
`sanitize_rtf_bytes` likewise returns the input unchanged — no marker is ever
appended, so the hash-difference post-condition does not hold for the RTF
sanitizer. -/
theorem c6_counterexample :
    (sanitize_rtf_file helloBytes).2 = "ok" ∧
    (sanitize_rtf_file helloBytes).1 = helloBytes ∧
    sanitize_rtf_bytes helloBytes = helloBytes := by decide

/-- C6 (amended): only the PDF sanitizer enforces the post-condition: on both
its structural path and its byte-scrub fallback path, output whose hash equals
the input hash gets an innocuous marker appended, so a successful
`sanitize_pdf` run never returns bytes equal to its input.  The RTF (and
OOXML) sanitizers have no such hash check. -/
theorem c6_pdf_marker_enforced :
    ∀ (env : PdfSanEnv) (data : List Nat),
    (sanitize_pdf_model env data).2 = "ok" → (sanitize_pdf_model env data).1 ≠ data := by
  intro env data _
  unfold sanitize_pdf_model
  have hm1 : (strBytes "\n% Sanitized_by_SafeDocs\n").length = 25 := by decide
  have hm2 : (strBytes "\n% Sanitized_Fallback\n").length = 22 := by decide
  cases hr : env.rebuild data with
  | some cleaned =>
    dsimp only
    split_ifs with hcd
    · intro he
      rw [hcd] at he
      have hl := congrArg List.length he
      rw [List.length_append, hm1] at hl
      omega
    · exact hcd
  | none =>
    dsimp only
    split_ifs with hcd
    · intro he
      rw [hcd] at he
      have hl := congrArg List.length he
      rw [List.length_append, hm2] at hl
      omega
    · exact hcd

/-- C6 (witness): `c6_pdf_marker_enforced` at a rebuild that returns its input
unchanged, forcing the marker branch. -/
theorem c6_pdf_marker_enforced_witness :
    (sanitize_pdf_model pdfSanEnv0 (strBytes "%PDF")).2 = "ok" ∧
    (sanitize_pdf_model pdfSanEnv0 (strBytes "%PDF")).1 ≠ strBytes "%PDF" :=
  ⟨by decide, c6_pdf_marker_enforced pdfSanEnv0 (strBytes "%PDF") (by decide)⟩

/-! ## Claim C7 -/

/-- C7 (confirmed): for every token deny-list and every input byte string, the
byte-level keyword scrub `_scrub_bytes_safely` produces output of exactly the
input's byte length (each batch substitution replaces a match by an
equal-length neutralization). -/
theorem c7_scrub_length_preserving :
    ∀ (tokens : List (List Nat)) (data : List Nat),
    (scrub_bytes_safely tokens data).length = data.length := by
  intro tokens data
  unfold scrub_bytes_safely
  exact scrub_foldl_length _ _

/-! ## Claim C8 -/

/-- C8 (confirmed): the deep structural walk of the parsed PDF object graph
inspects at most 1000 objects — its result depends only on the first 1000
entries of the object list, and consequently the findings extraction on a
parsed PDF document is unchanged when the object list is truncated to 1000
entries. -/
theorem c8_deep_scan_bounded :
    (∀ objs : List PdfObj, deepScanHit objs = deepScanHit (objs.take 1000)) ∧
    (∀ (data : List Nat) (doc : PdfDoc),
      extract_findings (fun _ => some doc) data ".pdf" =
      extract_findings (fun _ => some
        ⟨doc.rootAutoExec, doc.namesHasJavaScript, doc.objects.take 1000⟩) data ".pdf") := by
  have h1 : ∀ objs : List PdfObj, deepScanHit objs = deepScanHit (objs.take 1000) := by
    intro objs
    unfold deepScanHit
    simpa using deepScanAux_take objs 0
  refine ⟨h1, ?_⟩
  intro data doc
  unfold extract_findings extract_findings_core
  dsimp only
  rw [h1 doc.objects]

/-! ## Claim C9 -/

/-- C9 (confirmed): for every input and environment (including the
catastrophic-failure path), the verdict of `scan_bytes` is one of
benign/suspicious/malicious (the code only ever emits benign or malicious),
and the composite risk score lies in [0, 1]. -/
theorem c9_verdict_and_score_range :
    ∀ (env : ScanEnv) (data : List Nat) (fn : String) (ct : Option String),
    ((scan_bytes env data fn ct).verdict = "benign" ∨
     (scan_bytes env data fn ct).verdict = "suspicious" ∨
     (scan_bytes env data fn ct).verdict = "malicious") ∧
    0 ≤ (scan_bytes env data fn ct).riskScore ∧ (scan_bytes env data fn ct).riskScore ≤ 1 := by
  intro env data fn ct
  cases hc : env.crash with
  | some msg =>
    rw [scan_bytes_crashed _ _ _ _ _ hc]
    exact ⟨Or.inl rfl, le_refl 0, zero_le_one⟩
  | none =>
    rw [scan_bytes_ok _ _ _ _ hc]
    dsimp only
    constructor
    · unfold scanVerdictOf scan_verdict
      split_ifs <;> simp
    · unfold scan_risk
      split_ifs
      · exact ⟨zero_le_one, le_refl 1⟩
      · exact scan_risk0_mem data (ext_from_name fn)

/-! ## Claim C10 -/

/-- C10 (confirmed): the findings list of a scan result is never empty; when
no detection rule matched, the extraction appends exactly the informational
`no_obvious_tricks` finding; and the catastrophic-failure path emits exactly
one diagnostic finding of severity `info`. -/
theorem c10_findings_nonempty :
    (∀ (env : ScanEnv) (data : List Nat) (fn : String) (ct : Option String),
      (scan_bytes env data fn ct).findings ≠ []) ∧
    (∀ (pp : List Nat → Option PdfDoc) (data : List Nat) (ext : String),
      extract_findings_core pp data ext = [] →
      extract_findings pp data ext = [noObviousFinding]) ∧
    (∀ (env : ScanEnv) (data : List Nat) (fn : String) (ct : Option String) (msg : String),
      env.crash = some msg →
      (scan_bytes env data fn ct).findings.length = 1 ∧
      (scan_bytes env data fn ct).findings.all (fun f => f.severity = "info") = true) := by
  refine ⟨?_, ?_, ?_⟩
  · intro env data fn ct
    cases hc : env.crash with
    | some msg => rw [scan_bytes_crashed _ _ _ _ _ hc]; simp [fallback_result]
    | none =>
      rw [scan_bytes_ok _ _ _ _ hc]
      dsimp only
      unfold scanFindings extract_findings
      split_ifs with h
      · simp
      · intro hnil
        rw [hnil] at h
        exact h rfl
  · intro pp data ext h
    unfold extract_findings
    rw [h]
    rfl
  · intro env data fn ct msg h
    rw [scan_bytes_crashed _ _ _ _ _ h]
    exact ⟨rfl, rfl⟩

/-- C10 (witness): the three parts of `c10_findings_nonempty` at concrete
inputs, discharging the hypotheses of the conditional parts. -/
theorem c10_findings_nonempty_witness :
    (scan_bytes env0 aBytes "a.rtf" none).findings ≠ [] ∧
    extract_findings_core (fun _ => none) aBytes ".rtf" = [] ∧
    extract_findings (fun _ => none) aBytes ".rtf" = [noObviousFinding] ∧
    envCrash.crash = some "boom" ∧
    (scan_bytes envCrash [0] "x.bin" none).findings.length = 1 :=
  ⟨c10_findings_nonempty.1 env0 aBytes "a.rtf" none, by decide,
   c10_findings_nonempty.2.1 (fun _ => none) aBytes ".rtf" (by decide), rfl,
   (c10_findings_nonempty.2.2 envCrash [0] "x.bin" none "boom" rfl).1⟩

end SafeDocs
